import Mathlib

/-!
Shallow embedding of the Apollo configuration-client code of this repository
(pydantic_settings/sources/providers/apollo/client.py and
pydantic_settings/sources/providers/apollo.py), together with theorems that
settle the frozen specification claims about it.

Conventions of the embedding:
- Python dicts with string keys become association lists
  (`List (String × v)`) with first-match lookup and in-place update,
  which matches dict insertion-order semantics for the operations used.
- Wall-clock times are `Int` parameters threaded explicitly.
- Network effects (`requests.get`) become explicit outcome parameters: the
  function under analysis is modelled as a pure function of its state and of
  the outcome the network produced.
- A raised Python exception is an explicit value: functions that can let an
  exception escape return the mutated state together with `Option PyExc`
  (mutations performed before the raise persist, as in Python).
- Exception payload strings (log messages) are elided; only the class of the
  exception matters for control flow.
-/

set_option maxHeartbeats 1000000
set_option maxRecDepth 8000

namespace PydApollo

/-- First-match lookup in an association list; models `dict.get` (`none` = key absent). -/
def alookup {v : Type} (k : String) : List (String × v) → Option v
  | [] => none
  | (k2, x) :: rest => if k2 = k then some x else alookup k rest

/-- Update-or-append in an association list: models `d[k] = x` on a Python dict. -/
def ainsert {v : Type} (k : String) (x : v) : List (String × v) → List (String × v)
  | [] => [(k, x)]
  | (k2, y) :: rest => if k2 = k then (k2, x) :: rest else (k2, y) :: ainsert k x rest

theorem alookup_ainsert_self {v : Type} (k : String) (x : v) (l : List (String × v)) :
    alookup k (ainsert k x l) = some x := by
  induction l with
  | nil => simp [ainsert, alookup]
  | cons hd tl ih =>
    obtain ⟨k2, y⟩ := hd
    by_cases h : k2 = k
    · simp [ainsert, alookup, h]
    · simp [ainsert, alookup, h, ih]

/-- A configuration snapshot: the `configurations` JSON object, a map from
string key to string value. -/
def Config : Type := List (String × String)

instance : DecidableEq Config := by unfold Config; infer_instance

/-
================================================================
ApolloClient (client.py): exception classes and client state
================================================================
-/

/-- The Python exception classes that can cross `fetch_config_by_namespace`.
`serverNotResponse` and `apolloHttpError` embed `ServerNotResponseException`
and `ApolloHttpError`, whose base class `BasicException` derives from
`BaseException` (client.py line 38), NOT from `Exception`.
`otherExc` stands for any ordinary `Exception` subclass
(e.g. the JSON decode error of `r.json()`, or `IndexError`). -/
inductive PyExc
  | serverNotResponse
  | apolloHttpError
  | otherExc
deriving DecidableEq, Repr

/-- Whether `except Exception` catches the exception: true exactly for
`Exception` subclasses. `BasicException(BaseException)` is missed. -/
def PyExc.isException : PyExc → Bool
  | .serverNotResponse => false
  | .apolloHttpError => false
  | .otherExc => true

/-- Parsed JSON body of a 200 configs response, as read by
`fetch_config_by_namespace`: `data.get("configurations", {})` and
`data.get("releaseKey", str(time.time()))`. `releaseKey = none` means the
key is absent from the JSON, so the `str(time.time())` default is used. -/
structure FetchBody where
  configurations : Config
  releaseKey : Option String
deriving DecidableEq

/-- Outcome of the underlying `requests.get` inside `_http_get`:
either a response arrived (with its status code, and `none` body when
`r.json()` would raise a decode error), or one of the three exception
branches of `_http_get` fired. -/
inductive HttpOutcome
  | resp (status : Nat) (body : Option FetchBody)
  | timeout
  | connError
  | otherError
deriving DecidableEq

/-- A received HTTP response: status code plus parsed JSON body
(`none` = `r.json()` raises). -/
structure HttpResponse where
  status : Nat
  body : Option FetchBody
deriving DecidableEq

/-- `ApolloClient._http_get` (client.py lines 303-322): returns the response
on any HTTP status, and converts each of `requests.exceptions.Timeout`,
`requests.exceptions.ConnectionError` and any other `Exception` into a raised
`ServerNotResponseException`. -/
def httpGet (out : HttpOutcome) : Except PyExc HttpResponse :=
  match out with
  | .resp st body => .ok ⟨st, body⟩
  | .timeout => .error .serverNotResponse
  | .connError => .error .serverNotResponse
  | .otherError => .error .serverNotResponse

/-- One entry of the `/services/config` answer; only `homepageUrl` is used. -/
structure ServiceConf where
  homepageUrl : String
deriving DecidableEq

/-- Mutable state of an `ApolloClient` instance, restricted to the fields the
fetch / cache / failover paths touch. `writes` counts disk writes performed by
`update_local_file_cache` (the I/O trace for the idempotence claim); `disk`
maps a namespace to the parsed content of its cache file
`{app_id}_configuration_{namespace}.txt` (absent entry = missing file). -/
structure ClientState where
  cache : List (String × Config)
  hash : List (String × String)
  disk : List (String × Config)
  writes : Nat
  configServerUrl : String
  configServerHost : String
  configServerPort : Int
deriving DecidableEq

/-- `ApolloClient.update_cache` (client.py lines 324-330). -/
def updateCache (s : ClientState) (ns : String) (data : Config) : ClientState :=
  { s with cache := ainsert ns data s.cache }

/-- `ApolloClient.update_local_file_cache` (client.py lines 270-286): writes
the cache file and records the release key, but only when
`self._hash.get(namespace) != release_key`. -/
def updateLocalFileCache (s : ClientState) (releaseKey : String) (data : Config)
    (ns : String) : ClientState :=
  if alookup ns s.hash ≠ some releaseKey then
    { s with
      disk := ainsert ns data s.disk
      writes := s.writes + 1
      hash := ainsert ns releaseKey s.hash }
  else
    s

/-- `ApolloClient.get_local_file_cache` (client.py lines 288-301): parsed file
content, or the empty mapping when the file is missing or corrupt. -/
def getLocalFileCache (s : ClientState) (ns : String) : Config :=
  (alookup ns s.disk).getD []

/-
================================================================
C10 definitions: cache filename construction and recovery
================================================================
-/

/-- Stem (filename without the `.txt` extension) of the cache file written by
`update_local_file_cache`: `f"{app_id}_configuration_{namespace}"`
(client.py lines 279-282). Modelled on character lists. -/
def cacheFileStem (appId ns : List Char) : List Char :=
  appId ++ ("_configuration_".data) ++ ns

/-- Python `str.split(sep)` for a single-character separator: the result is
always nonempty, and adjacent separators produce empty tokens. -/
def pySplit (sep : Char) : List Char → List (List Char)
  | [] => [[]]
  | c :: rest =>
    if c = sep then [] :: pySplit sep rest
    else
      match pySplit sep rest with
      | [] => [[c]]
      | t :: ts => (c :: t) :: ts

theorem pySplit_ne_nil (sep : Char) (l : List Char) : pySplit sep l ≠ [] := by
  cases l with
  | nil => simp [pySplit]
  | cons c rest =>
    by_cases h : c = sep
    · simp [pySplit, h]
    · simp only [pySplit, h, if_false]
      cases pySplit sep rest <;> simp

theorem pySplit_mem_not_mem_sep (sep : Char) (l : List Char) :
    ∀ t ∈ pySplit sep l, sep ∉ t := by
  induction l with
  | nil => intro t ht; simp [pySplit] at ht; simp [ht]
  | cons c rest ih =>
    intro t ht
    by_cases h : c = sep
    · simp only [pySplit, h, if_true] at ht
      rcases List.mem_cons.mp ht with h1 | h2
      · simp [h1]
      · exact ih t h2
    · simp only [pySplit, h, if_false] at ht
      rcases heq : pySplit sep rest with _ | ⟨t0, ts⟩
      · exact absurd heq (pySplit_ne_nil sep rest)
      · rw [heq] at ht
        rcases List.mem_cons.mp ht with h1 | h2
        · subst h1
          intro hmem
          rcases List.mem_cons.mp hmem with h3 | h4
          · exact h h3.symm
          · exact ih t0 (heq ▸ List.mem_cons_self t0 ts) h4
        · exact ih t (heq ▸ List.mem_cons_of_mem t0 h2)

/-- Namespace recovery performed by `load_local_cache_file` (client.py line
403): `file_simple_name.split("_")[-1]`, the last underscore-separated token
of the filename stem. -/
def recoveredNamespace (stem : List Char) : List Char :=
  (pySplit '_' stem).getLastD []

theorem recoveredNamespace_no_underscore (stem : List Char) :
    '_' ∉ recoveredNamespace stem := by
  unfold recoveredNamespace
  have hne := pySplit_ne_nil '_' stem
  have hmem : (pySplit '_' stem).getLastD [] ∈ pySplit '_' stem := by
    rcases heq : pySplit '_' stem with _ | ⟨t, ts⟩
    · exact absurd heq hne
    · rw [List.getLastD_eq_getLast?, List.getLast?_eq_getLast (t :: ts) (by simp)]
      simp only [Option.getD_some]
      exact List.getLast_mem (by simp)
  exact pySplit_mem_not_mem_sep '_' stem _ hmem

/-- C10: the namespace does not round-trip through the cache filename when it
contains an underscore: `update_local_file_cache` writes the file stem
`{app_id}_configuration_{namespace}`, but `load_local_cache_file` recovers
the namespace as the LAST underscore-separated token of that stem, which can
never contain an underscore — so for every namespace containing `_`, and any
app id, the cached configuration is reloaded into memory under a namespace
key different from the one it was written for. -/
theorem cache_filename_namespace_roundtrip_broken (appId ns : List Char)
    (h : '_' ∈ ns) :
    recoveredNamespace (cacheFileStem appId ns) ≠ ns := by
  intro heq
  apply recoveredNamespace_no_underscore (cacheFileStem appId ns)
  rw [heq]
  exact h

/-- Witness for C10 at app id `app` and namespace `my_ns`: the recovered
namespace is `ns`, not `my_ns`. -/
theorem cache_filename_namespace_roundtrip_broken_witness :
    '_' ∈ "my_ns".data ∧
    recoveredNamespace (cacheFileStem "app".data "my_ns".data) ≠ "my_ns".data :=
  ⟨by decide,
    cache_filename_namespace_roundtrip_broken "app".data "my_ns".data (by decide)⟩

/-
================================================================
ApolloClient: service discovery, failover and fetch
================================================================
-/

/-- Outcome of the `requests.get` inside `get_service_conf`: a response with
its parsed JSON list, or a raised exception (requests exceptions propagate
here unconverted; they are `Exception` subclasses). -/
inductive SvcOutcome
  | resp (status : Nat) (body : List ServiceConf)
  | exc
deriving DecidableEq

/-- `ApolloClient.get_service_conf` (client.py lines 412-427): returns the
service list on 200 with a nonempty body, raises `ApolloHttpError` on an
empty body or a non-200 status. -/
def getServiceConf : SvcOutcome → Except PyExc (List ServiceConf)
  | .exc => .error .otherExc
  | .resp st body =>
    if st = 200 then
      if body = [] then .error .apolloHttpError else .ok body
    else .error .apolloHttpError

/-- `ApolloClient.update_config_server` (client.py lines 429-455): fetches the
service list, filters out the excluded address (Python truthiness: only when
`exclude` is a non-None nonempty string), selects `service_conf[0]`
(IndexError when the filtered list is empty) — and then ignores the selected
candidate: the assignment from `service["homepageUrl"]` is commented out in
the source (marked TODO) and `self._config_server_url` is hard-coded to
`"http://localhost:8080"`. Host and port are then derived from that constant:
`"http://localhost:8080".split(":")` gives `["http", "//localhost", "8080"]`,
so host = `"http://localhost"` and port = `8080`. -/
def updateConfigServer (s : ClientState) (svc : SvcOutcome)
    (exclude : Option String) : ClientState × Option PyExc :=
  match getServiceConf svc with
  | .error e => (s, some e)
  | .ok serviceConf =>
    let filtered :=
      match exclude with
      | some e => if e ≠ "" then serviceConf.filter (fun (sv : ServiceConf) => sv.homepageUrl != e)
                  else serviceConf
      | none => serviceConf
    match filtered with
    | [] => (s, some .otherExc)
    | _ :: _ =>
      ({ s with
          configServerUrl := "http://localhost:8080"
          configServerHost := "http://localhost"
          configServerPort := 8080 }, none)

/-- The `except Exception` branch of `fetch_config_by_namespace` (client.py
lines 363-370): load the disk cache into memory for the namespace, then
trigger failover excluding the current config-server host. An exception
raised by `update_config_server` itself propagates, with the cache mutation
already performed. -/
def fetchExceptBranch (s : ClientState) (ns : String) (svc : SvcOutcome) :
    ClientState × Option PyExc :=
  let s1 := updateCache s ns (getLocalFileCache s ns)
  updateConfigServer s1 svc (some s1.configServerHost)

/-- `ApolloClient.fetch_config_by_namespace` (client.py lines 332-370).
Inputs: the client state, the namespace, the outcome of the HTTP GET, the
`str(time.time())` default used when the body lacks `releaseKey`, and the
outcome the failover path would see on `/services/config`. Returns the
state after all performed mutations together with the escaped exception, if
any. The `except Exception` clause (line 363) matches only `Exception`
subclasses, so the `ServerNotResponseException` raised by `_http_get` — a
`BasicException`, which derives from `BaseException` — escapes without the
fallback or the failover running. -/
def fetchConfigByNamespace (s : ClientState) (ns : String) (out : HttpOutcome)
    (rkDefault : String) (svc : SvcOutcome) : ClientState × Option PyExc :=
  match httpGet out with
  | .error e =>
    if e.isException then fetchExceptBranch s ns svc
    else (s, some e)
  | .ok r =>
    if r.status = 200 then
      match r.body with
      | some data =>
        let configurations := data.configurations
        let releaseKey := data.releaseKey.getD rkDefault
        let s1 := updateCache s ns configurations
        (updateLocalFileCache s1 releaseKey configurations ns, none)
      | none =>
        fetchExceptBranch s ns svc
    else
      (updateCache s ns (getLocalFileCache s ns), none)

/-- Helper: on a non-200 response the fetch returns normally and the
in-memory mapping for the namespace equals the disk cache content (or the
empty mapping when no cache file exists). -/
theorem fetch_non200_fallsback (s : ClientState) (ns : String) (st : Nat)
    (body : Option FetchBody) (rk : String) (svc : SvcOutcome) (h : st ≠ 200) :
    fetchConfigByNamespace s ns (.resp st body) rk svc
      = (updateCache s ns (getLocalFileCache s ns), none) := by
  simp [fetchConfigByNamespace, httpGet, h]

/-- Helper: on any of the three transport-failure branches of `_http_get`
the fetch lets `ServerNotResponseException` escape and performs no state
mutation at all. -/
theorem fetch_transport_failure_raises (s : ClientState) (ns : String)
    (out : HttpOutcome) (rk : String) (svc : SvcOutcome)
    (h : out = .timeout ∨ out = .connError ∨ out = .otherError) :
    fetchConfigByNamespace s ns out rk svc = (s, some .serverNotResponse) := by
  rcases h with h | h | h <;>
    simp [h, fetchConfigByNamespace, httpGet, PyExc.isException]

/-- Concrete client state used in the claim evaluations: the in-memory cache
holds an old value for `application`, the disk cache holds a different one. -/
def sampleClientState : ClientState :=
  { cache := [("application", [("k", "old")])]
    hash := [("application", "r0")]
    disk := [("application", [("k", "disk")])]
    writes := 1
    configServerUrl := "http://localhost:8080"
    configServerHost := "http://localhost"
    configServerPort := 8080 }

/-- C1: the claim says `fetch_config_by_namespace` returns normally on every
recoverable failure (timeout, connection failure, non-200). The code
violates this for timeouts and connection failures: `_http_get` converts
them into `ServerNotResponseException`, whose base class `BasicException`
derives from `BaseException`, so the `except Exception` fallback never
catches it and the exception escapes to the caller with no snapshot
delivered. Evaluated here at a concrete connection failure: the call raises
and leaves the state untouched, while a non-200 response at the same state
does return normally. -/
theorem fetch_config_by_namespace_raises_on_connection_failure :
    fetchConfigByNamespace sampleClientState "application" .connError "0"
        (.resp 200 [⟨"http://a:8080"⟩, ⟨"http://b:8080"⟩])
      = (sampleClientState, some .serverNotResponse) ∧
    (fetchConfigByNamespace sampleClientState "application" (.resp 404 none) "0"
        (.resp 200 [⟨"http://a:8080"⟩, ⟨"http://b:8080"⟩])).2 = none := by
  constructor
  · exact fetch_transport_failure_raises _ _ _ _ _ (Or.inr (Or.inl rfl))
  · decide

/-- C4: the claim says that after a transport failure or a non-200 status the
in-memory mapping for the namespace equals the latest disk cache (or is
empty). This holds for non-200 responses, but on a transport failure the
exception escapes (see C1) before the fallback runs: the in-memory mapping
keeps its previous value and is NOT populated from disk. Evaluated at a
concrete state whose disk cache differs from the in-memory value. -/
theorem fetch_transport_failure_skips_disk_fallback :
    (fetchConfigByNamespace sampleClientState "application" .timeout "0"
        (.resp 200 [⟨"http://a:8080"⟩])).2 = some .serverNotResponse ∧
    alookup "application"
        (fetchConfigByNamespace sampleClientState "application" .timeout "0"
          (.resp 200 [⟨"http://a:8080"⟩])).1.cache = some [("k", "old")] ∧
    getLocalFileCache sampleClientState "application" = [("k", "disk")] ∧
    alookup "application"
        (fetchConfigByNamespace sampleClientState "application" .timeout "0"
          (.resp 200 [⟨"http://a:8080"⟩])).1.cache
      ≠ some (getLocalFileCache sampleClientState "application") ∧
    alookup "application"
        (fetchConfigByNamespace sampleClientState "application" (.resp 500 none) "0"
          (.resp 200 [⟨"http://a:8080"⟩])).1.cache
      = some (getLocalFileCache sampleClientState "application") := by
  refine ⟨?_, ?_, ?_, ?_, ?_⟩ <;> decide

/-- C5: `update_local_file_cache` writes the cache file only when the release
key differs from the last one recorded for the namespace: starting from any
state where `rk` is not the recorded key, a first call writes once, a second
call with the same key is a complete no-op (no disk I/O, no state change),
and a further call with a different key writes a second time. -/
theorem update_local_file_cache_idempotent (s : ClientState)
    (ns rk rk2 : String) (data data2 data3 : Config)
    (h : alookup ns s.hash ≠ some rk) (h2 : rk2 ≠ rk) :
    (updateLocalFileCache s rk data ns).writes = s.writes + 1 ∧
    updateLocalFileCache (updateLocalFileCache s rk data ns) rk data2 ns
      = updateLocalFileCache s rk data ns ∧
    (updateLocalFileCache (updateLocalFileCache s rk data ns) rk2 data3 ns).writes
      = s.writes + 2 := by
  have hsame : alookup ns (updateLocalFileCache s rk data ns).hash = some rk := by
    simp only [updateLocalFileCache, if_pos h]
    exact alookup_ainsert_self ns rk s.hash
  refine ⟨?_, ?_, ?_⟩
  · simp only [updateLocalFileCache, if_pos h]
  · simp only [updateLocalFileCache]
    rw [if_pos h]
    have : ¬ (alookup ns (ainsert ns rk s.hash) ≠ some rk) := by
      simp [alookup_ainsert_self]
    simp only [updateLocalFileCache, if_pos h] at hsame ⊢
    rw [if_neg this]
  · have hdiff : alookup ns (updateLocalFileCache s rk data ns).hash ≠ some rk2 := by
      rw [hsame]
      intro hc
      exact h2 (Option.some.inj hc).symm
    simp only [updateLocalFileCache, if_pos h, if_pos hdiff] at hdiff ⊢
    have : alookup ns (ainsert ns rk s.hash) ≠ some rk2 := by
      rw [alookup_ainsert_self]
      intro hc
      exact h2 (Option.some.inj hc).symm
    rw [if_pos this]

/-- Witness for C5 at a concrete state and concrete release keys. -/
theorem update_local_file_cache_idempotent_witness :
    (alookup "application" sampleClientState.hash ≠ some "r1" ∧ "r2" ≠ "r1") ∧
    ((updateLocalFileCache sampleClientState "r1" [("a", "1")] "application").writes
        = sampleClientState.writes + 1 ∧
      updateLocalFileCache
          (updateLocalFileCache sampleClientState "r1" [("a", "1")] "application")
          "r1" [("a", "2")] "application"
        = updateLocalFileCache sampleClientState "r1" [("a", "1")] "application" ∧
      (updateLocalFileCache
          (updateLocalFileCache sampleClientState "r1" [("a", "1")] "application")
          "r2" [("a", "3")] "application").writes
        = sampleClientState.writes + 2) :=
  ⟨⟨by decide, by decide⟩,
    update_local_file_cache_idempotent sampleClientState "application" "r1" "r2"
      [("a", "1")] [("a", "2")] [("a", "3")] (by decide) (by decide)⟩

/-- C6: the claim says a transport failure triggers failover to the next
candidate config-server address, excluding the failed one. Two violations,
evaluated concretely. First, on a transport failure the escaped
`ServerNotResponseException` (see C1) prevents the `except` branch from ever
calling `update_config_server`, so the config-server address is unchanged.
Second, even when `update_config_server` is called directly with the failed
address excluded and a second candidate available, it ignores the selected
candidate and hard-codes `"http://localhost:8080"` (the assignment from the
service list is commented out in the source with a TODO). -/
theorem update_config_server_never_selects_next_candidate :
    (fetchConfigByNamespace sampleClientState "application" .connError "0"
        (.resp 200 [⟨"http://a:8080"⟩, ⟨"http://b:8080"⟩])).1.configServerUrl
      = sampleClientState.configServerUrl ∧
    (updateConfigServer sampleClientState
        (.resp 200 [⟨"http://a:8080"⟩, ⟨"http://b:8080"⟩])
        (some "http://a:8080")).1.configServerUrl = "http://localhost:8080" ∧
    (updateConfigServer sampleClientState
        (.resp 200 [⟨"http://a:8080"⟩, ⟨"http://b:8080"⟩])
        (some "http://a:8080")).1.configServerUrl ≠ "http://b:8080" := by
  refine ⟨?_, ?_, ?_⟩ <;> decide

/-
================================================================
ApolloConfigMapping (apollo.py): load, lookup, notification worker
================================================================
-/

/-- A Python value that `_notification_id` can hold: it starts as the int
`-1` and is later assigned `data.get("releaseKey", ...)`, a JSON string.
Python `!=` between an int and a str is always true, which the structural
inequality of this type reproduces. -/
inductive PyVal
  | int (n : Int)
  | str (s : String)
deriving DecidableEq, Repr

/-- Mutable state of an `ApolloConfigMapping` (apollo.py lines 36-39):
the loaded configuration dict, the time of the last successful load, and the
tracked `_notification_id`. -/
structure MappingState where
  loadedConfigs : Config
  lastUpdateTime : Int
  notificationId : PyVal
deriving DecidableEq

/-- Parsed JSON body of the configs response read by `_load_configs`
(apollo.py lines 58-63): `configurations = none` when the key is absent
(the truthiness test also rejects an empty dict), `releaseKey = none` when
that key is absent (then the old tracked value is kept). -/
structure LoadBody where
  configurations : Option Config
  releaseKey : Option PyVal
deriving DecidableEq

/-- Outcome of the `requests.get` inside `_load_configs`: a response whose
body is `none` when `response.json()` raises, or a raised requests
exception. Both failure forms are caught by the `except Exception` clause
(apollo.py line 64) and leave the state unchanged. -/
inductive LoadOutcome
  | resp (status : Nat) (body : Option LoadBody)
  | exc
deriving DecidableEq

/-- `ApolloConfigMapping._load_configs` (apollo.py lines 50-65): on a 200
response whose `configurations` entry is truthy (present and nonempty), it
replaces the loaded configs, stamps the load time, and sets
`_notification_id` to the `releaseKey` of the response (keeping the old
value when `releaseKey` is absent). Every other outcome leaves the state
unchanged. -/
def loadConfigs (s : MappingState) (now : Int) (out : LoadOutcome) : MappingState :=
  match out with
  | .exc => s
  | .resp st body =>
    if st = 200 then
      match body with
      | none => s
      | some data =>
        match data.configurations with
        | none => s
        | some c =>
          if c = [] then s
          else ⟨c, now, data.releaseKey.getD s.notificationId⟩
    else s

/-- Whether a load outcome installs a new snapshot (200, with a present and
nonempty `configurations` map). -/
def loadInstalls : LoadOutcome → Bool
  | .resp st (some data) =>
    st == 200 && (match data.configurations with
                  | some c => !c.isEmpty
                  | none => false)
  | _ => false

theorem loadConfigs_lastUpdateTime (s : MappingState) (now : Int)
    (out : LoadOutcome) (h : loadInstalls out = true) :
    (loadConfigs s now out).lastUpdateTime = now := by
  match out with
  | .exc => simp [loadInstalls] at h
  | .resp st none => simp [loadInstalls] at h
  | .resp st (some data) =>
    simp only [loadInstalls, Bool.and_eq_true, beq_iff_eq] at h
    obtain ⟨hst, hc⟩ := h
    match hcfg : data.configurations with
    | none => rw [hcfg] at hc; simp at hc
    | some c =>
      rw [hcfg] at hc
      simp only [Bool.not_eq_true'] at hc
      have hcne : c ≠ [] := by
        intro hnil
        rw [hnil] at hc
        simp [List.isEmpty] at hc
      simp [loadConfigs, hst, hcfg, hcne]

/-- `ApolloConfigMapping.__getitem__` (apollo.py lines 95-105): lower-case
the key when case-insensitive, then compare `now - last_update_time` against
the refresh interval and run a synchronous `_load_configs` when it is
exceeded, then answer from the (possibly refreshed) loaded configs with
`dict.get`. The whole lookup is stamped with one clock reading `now`. -/
def getitem (s : MappingState) (key : String) (caseSensitive : Bool)
    (interval now : Int) (out : LoadOutcome) : Option String × MappingState :=
  let key := if caseSensitive then key else key.toLower
  let s2 := if now - s.lastUpdateTime > interval then loadConfigs s now out else s
  (alookup key s2.loadedConfigs, s2)

/-- A mapping state whose snapshot was taken at time 0. -/
def staleMappingState : MappingState :=
  { loadedConfigs := [("x", "v")]
    lastUpdateTime := 0
    notificationId := .int (-1) }

/-- C7: the claim says no returned value is staler than the refresh interval
except while a refresh is in flight. Counterexample: with the snapshot taken
at time 0, a lookup at time 100 with interval 60 triggers the synchronous
refresh, the refresh fails (the exception is swallowed by `_load_configs`),
and the lookup then answers from the 100-time-units-old snapshot — staler
than the interval, with no refresh in flight any more. -/
theorem getitem_returns_stale_value_when_refresh_fails :
    getitem staleMappingState "x" true 60 100 .exc = (some "v", staleMappingState) ∧
    (100 : Int) - staleMappingState.lastUpdateTime > 60 := by
  constructor
  · decide
  · decide

/-- C7 (amended): on each lookup the mapping compares `now - last_update_time`
with the interval and, when it is exceeded, runs the synchronous fetch before
answering; provided every fetch so triggered succeeds in installing a
snapshot (200 with a nonempty `configurations`), the answered state is never
staler than the interval. When the triggered fetch fails the stale snapshot
is served instead (see the counterexample). -/
theorem getitem_staleness_bound (s : MappingState) (key : String)
    (caseSensitive : Bool) (interval now : Int) (out : LoadOutcome)
    (hInt : 0 ≤ interval)
    (hLoad : now - s.lastUpdateTime > interval → loadInstalls out = true) :
    (now - s.lastUpdateTime > interval →
      (getitem s key caseSensitive interval now out).2 = loadConfigs s now out) ∧
    now - (getitem s key caseSensitive interval now out).2.lastUpdateTime ≤ interval := by
  by_cases hstale : now - s.lastUpdateTime > interval
  · refine ⟨fun _ => ?_, ?_⟩
    · simp [getitem, hstale]
    · have hinst := hLoad hstale
      have hts := loadConfigs_lastUpdateTime s now out hinst
      simp [getitem, hstale, hts, hInt]
  · refine ⟨fun hc => absurd hc hstale, ?_⟩
    simp only [getitem, hstale, if_false]
    omega

/-- Witness for C7 (amended) at a stale state whose triggered refresh
succeeds: the lookup refreshes synchronously and the answer is fresh. -/
theorem getitem_staleness_bound_witness :
    ((0 : Int) ≤ 60 ∧
      ((100 : Int) - staleMappingState.lastUpdateTime > 60 →
        loadInstalls (.resp 200 (some ⟨some [("x", "v2")], some (.str "rk1")⟩)) = true)) ∧
    (((100 : Int) - staleMappingState.lastUpdateTime > 60 →
        (getitem staleMappingState "x" true 60 100
            (.resp 200 (some ⟨some [("x", "v2")], some (.str "rk1")⟩))).2
          = loadConfigs staleMappingState 100
              (.resp 200 (some ⟨some [("x", "v2")], some (.str "rk1")⟩))) ∧
      (100 : Int) - (getitem staleMappingState "x" true 60 100
            (.resp 200 (some ⟨some [("x", "v2")], some (.str "rk1")⟩))).2.lastUpdateTime
        ≤ 60) :=
  ⟨⟨by decide, by decide⟩,
    getitem_staleness_bound staleMappingState "x" true 60 100
      (.resp 200 (some ⟨some [("x", "v2")], some (.str "rk1")⟩))
      (by decide) (by decide)⟩

/-- One entry of the notification-poll JSON array. -/
structure NotifEntry where
  namespaceName : String
  notificationId : Int
deriving DecidableEq

/-- Outcome of the `requests.get` inside `notification_worker`: a response
(body `none` when `response.json()` raises) or a raised requests exception
(both failure forms are caught by the worker and only logged). -/
inductive PollOutcome
  | resp (status : Nat) (body : Option (List NotifEntry))
  | exc
deriving DecidableEq

/-- Result of one iteration of the notification worker loop: the new mapping
state, whether a configuration fetch was triggered, and how long the
iteration sleeps before the next poll. -/
structure WorkerStepResult where
  state : MappingState
  fetchTriggered : Bool
  sleepSeconds : Nat
deriving DecidableEq

/-- One iteration of `notification_worker`
(apollo.py lines 69-90): on a 200 response whose JSON array is nonempty and
whose first entry carries a `notificationId` different (by Python `!=`) from
the tracked `_notification_id`, run `_load_configs`; in every case — success,
304, other statuses, and exceptions alike — the iteration ends with
`time.sleep(1)`, which sits after the try/except and inside the loop. -/
def workerStep (s : MappingState) (poll : PollOutcome) (now : Int)
    (load : LoadOutcome) : WorkerStepResult :=
  let body :=
    match poll with
    | .exc => (s, false)
    | .resp st jsonBody =>
      if st = 200 then
        match jsonBody with
        | none => (s, false)
        | some [] => (s, false)
        | some (n :: _) =>
          if PyVal.int n.notificationId ≠ s.notificationId then
            (loadConfigs s now load, true)
          else (s, false)
      else (s, false)
  ⟨body.1, body.2, 1⟩

/-- Worker state at start: tracked notification id is the int `-1`. -/
def freshMappingState : MappingState :=
  { loadedConfigs := []
    lastUpdateTime := 0
    notificationId := .int (-1) }

/-- Scenario B poll response: `{namespaceName: "application", notificationId: 5}`. -/
def scenarioBPoll : PollOutcome :=
  .resp 200 (some [⟨"application", 5⟩])

/-- A successful config fetch outcome whose `releaseKey` is `"20240101"`. -/
def goodLoadOutcome : LoadOutcome :=
  .resp 200 (some ⟨some [("k", "v")], some (.str "20240101")⟩)

/-- C2 counterexample: with tracked id `-1`, a poll response carrying
`notificationId 5` does trigger a fetch, but the tracked value is then set to
the `releaseKey` of the config response (`"20240101"`), not to `5`; and
because `"20240101" != 5`, the very same poll response triggers a second
fetch on the next iteration — not exactly once per distinct id change. -/
theorem notification_worker_does_not_track_poll_id :
    (workerStep freshMappingState scenarioBPoll 10 goodLoadOutcome).fetchTriggered = true ∧
    (workerStep freshMappingState scenarioBPoll 10 goodLoadOutcome).state.notificationId
      = .str "20240101" ∧
    (workerStep freshMappingState scenarioBPoll 10 goodLoadOutcome).state.notificationId
      ≠ .int 5 ∧
    (workerStep (workerStep freshMappingState scenarioBPoll 10 goodLoadOutcome).state
        scenarioBPoll 20 goodLoadOutcome).fetchTriggered = true := by
  refine ⟨?_, ?_, ?_, ?_⟩ <;> decide

/-- C2 (amended): one worker iteration triggers a fetch exactly when the
first entry of a 200 poll response carries a `notificationId` that differs
(by Python `!=`) from the tracked value, and the tracked value is then set by
`_load_configs` to the `releaseKey` of the fetched config response — never to
the notification id itself; when the ids compare equal nothing changes. -/
theorem notification_worker_step_semantics (s : MappingState) (n : NotifEntry)
    (rest : List NotifEntry) (now : Int) (data : LoadBody) (c : Config) :
    (PyVal.int n.notificationId ≠ s.notificationId →
      workerStep s (.resp 200 (some (n :: rest))) now (.resp 200 (some data))
        = ⟨loadConfigs s now (.resp 200 (some data)), true, 1⟩) ∧
    (PyVal.int n.notificationId = s.notificationId →
      workerStep s (.resp 200 (some (n :: rest))) now (.resp 200 (some data))
        = ⟨s, false, 1⟩) ∧
    (data.configurations = some c → c ≠ [] →
      (loadConfigs s now (.resp 200 (some data))).notificationId
        = data.releaseKey.getD s.notificationId) := by
  refine ⟨fun hne => ?_, fun heq => ?_, fun hcfg hc => ?_⟩
  · simp [workerStep, hne]
  · simp [workerStep, heq]
  · simp [loadConfigs, hcfg, hc]

/-- Witness for C2 (amended) at the Scenario B input. -/
theorem notification_worker_step_semantics_witness :
    (PyVal.int 5 ≠ freshMappingState.notificationId ∧
      (⟨some [("k", "v")], some (.str "20240101")⟩ : LoadBody).configurations
        = some [("k", "v")] ∧
      ([("k", "v")] : Config) ≠ []) ∧
    (workerStep freshMappingState (.resp 200 (some [⟨"application", 5⟩])) 10
        (.resp 200 (some ⟨some [("k", "v")], some (.str "20240101")⟩))
      = ⟨loadConfigs freshMappingState 10
            (.resp 200 (some ⟨some [("k", "v")], some (.str "20240101")⟩)), true, 1⟩ ∧
      (loadConfigs freshMappingState 10
          (.resp 200 (some ⟨some [("k", "v")], some (.str "20240101")⟩))).notificationId
        = (some (PyVal.str "20240101")).getD freshMappingState.notificationId) :=
  ⟨⟨by decide, by decide, by decide⟩,
    (notification_worker_step_semantics freshMappingState ⟨"application", 5⟩ [] 10
        ⟨some [("k", "v")], some (.str "20240101")⟩ [("k", "v")]).1 (by decide),
    (notification_worker_step_semantics freshMappingState ⟨"application", 5⟩ [] 10
        ⟨some [("k", "v")], some (.str "20240101")⟩ [("k", "v")]).2.2 (by decide) (by decide)⟩

/-- C8 counterexample: a 304 response does leave the state unchanged, but the
iteration still sleeps 1 second — `time.sleep(1)` sits after the try/except
and runs on every iteration, so the loop does not retry immediately. -/
theorem notification_worker_304_still_sleeps :
    workerStep freshMappingState (.resp 304 none) 10 goodLoadOutcome
      = ⟨freshMappingState, false, 1⟩ ∧ (1 : Nat) ≠ 0 := by
  refine ⟨?_, ?_⟩ <;> decide

/-- C8 (amended): every iteration of the worker sleeps exactly 1 time unit
before retrying, whatever the poll outcome — 304 included; any non-200
status (304 as well as others) additionally causes no state change and no
fetch. -/
theorem notification_worker_always_sleeps_one (s : MappingState)
    (poll : PollOutcome) (now : Int) (load : LoadOutcome) :
    (workerStep s poll now load).sleepSeconds = 1 ∧
    (∀ st jsonBody, st ≠ 200 →
      workerStep s (.resp st jsonBody) now load = ⟨s, false, 1⟩) := by
  constructor
  · rfl
  · intro st jsonBody hst
    simp [workerStep, hst]

/-- Witness for C8 (amended) at a concrete 304 iteration. -/
theorem notification_worker_always_sleeps_one_witness :
    (workerStep freshMappingState (.resp 304 none) 10 goodLoadOutcome).sleepSeconds = 1 ∧
    workerStep freshMappingState (.resp 304 none) 10 goodLoadOutcome
      = ⟨freshMappingState, false, 1⟩ :=
  ⟨(notification_worker_always_sleeps_one freshMappingState (.resp 304 none) 10
      goodLoadOutcome).1,
    (notification_worker_always_sleeps_one freshMappingState (.resp 304 none) 10
      goodLoadOutcome).2 304 none (by decide)⟩

/-
================================================================
ApolloClient registry (client.py __new__ / __init__) for C9
================================================================
-/

/-- Process-wide registry state of `ApolloClient`: `instances` is the
`_instances` dict keyed by the stringified constructor arguments, `nextId`
numbers fresh instances, and `pollThreads` records, per started polling
thread, the id of the instance it polls for (each `start_polling_thread`
call appends one entry). -/
structure Registry where
  instances : List (String × Nat)
  nextId : Nat
  pollThreads : List Nat
deriving DecidableEq

/-- `ApolloClient(args...)`: `__new__` (client.py lines 65-70) returns the
instance already registered under the argument key, creating and registering
a fresh one only when absent; Python then ALWAYS runs `__init__` on the
returned instance, and `__init__` (line 154) ends with
`start_polling_thread`, which starts a new polling thread. Only the
registry and thread effects of `__init__` are modelled. -/
def constructClient (r : Registry) (key : String) : Nat × Registry :=
  let step :=
    match alookup key r.instances with
    | some i => (i, r)
    | none =>
      (r.nextId,
        { r with
            instances := ainsert key r.nextId r.instances
            nextId := r.nextId + 1 })
  (step.1, { step.2 with pollThreads := step.2.pollThreads ++ [step.1] })

/-- The registry before any client has been constructed. -/
def emptyRegistry : Registry := ⟨[], 0, []⟩

/-- C9 counterexample: constructing twice with identical arguments returns
the same instance (the registry half of the claim holds), but the second
construction re-runs `__init__` on that instance and spawns a second polling
thread for it — the poller is duplicated, not reused. -/
theorem duplicate_construction_spawns_second_poller :
    (constructClient (constructClient emptyRegistry "k").2 "k").1
      = (constructClient emptyRegistry "k").1 ∧
    (constructClient (constructClient emptyRegistry "k").2 "k").2.pollThreads
      = [0, 0] ∧
    ((constructClient (constructClient emptyRegistry "k").2 "k").2.pollThreads.count
        (constructClient emptyRegistry "k").1) = 2 := by
  refine ⟨?_, ?_, ?_⟩ <;> decide

/-- C9 (amended): for every registry state, two constructions with the same
argument key return the same instance id, but each construction appends one
more polling thread for that instance instead of reusing the existing one. -/
theorem construct_same_key_same_instance_extra_thread (r : Registry) (key : String) :
    (constructClient (constructClient r key).2 key).1 = (constructClient r key).1 ∧
    (constructClient (constructClient r key).2 key).2.pollThreads
      = (constructClient r key).2.pollThreads ++ [(constructClient r key).1] := by
  match hl : alookup key r.instances with
  | some i =>
    constructor <;> simp [constructClient, hl]
  | none =>
    constructor <;> simp [constructClient, hl, alookup_ainsert_self]

/-
================================================================
C3: signing — SHA-1, HMAC-SHA1, Base64, header construction
================================================================
Bytes are `Nat` values below 256 and 32-bit words are `Nat` values reduced
modulo 2^32 where overflow matters.
-/

/-- 2 to the power 32. -/
def w32 : Nat := 4294967296

/-- Left rotation of a 32-bit word by `n` bits. -/
def rotl32 (n x : Nat) : Nat :=
  ((x <<< n) ||| (x >>> (32 - n))) % w32

/-- SHA-1 round constant for round `i` (FIPS 180-4). -/
def sha1K (i : Nat) : Nat :=
  if i < 20 then 0x5A827999
  else if i < 40 then 0x6ED9EBA1
  else if i < 60 then 0x8F1BBCDC
  else 0xCA62C1D6

/-- SHA-1 round function for round `i`. -/
def sha1F (i b c d : Nat) : Nat :=
  if i < 20 then (b &&& c) ||| ((b ^^^ 0xFFFFFFFF) &&& d)
  else if i < 40 then b ^^^ c ^^^ d
  else if i < 60 then (b &&& c) ||| (b &&& d) ||| (c &&& d)
  else b ^^^ c ^^^ d

/-- Big-endian 4-byte serialization of a 32-bit word. -/
def beBytes4 (n : Nat) : List Nat :=
  [(n >>> 24) % 256, (n >>> 16) % 256, (n >>> 8) % 256, n % 256]

/-- Big-endian 8-byte serialization of a 64-bit length field. -/
def beBytes8 (n : Nat) : List Nat :=
  [(n >>> 56) % 256, (n >>> 48) % 256, (n >>> 40) % 256, (n >>> 32) % 256,
    (n >>> 24) % 256, (n >>> 16) % 256, (n >>> 8) % 256, n % 256]

/-- SHA-1 padding: append 0x80, zero bytes to 56 mod 64, then the 64-bit
big-endian bit length. -/
def sha1Pad (msg : List Nat) : List Nat :=
  let padZeros := (119 - (msg.length % 64)) % 64
  msg ++ [0x80] ++ List.replicate padZeros 0 ++ beBytes8 (msg.length * 8)

/-- Grouping of a byte list into big-endian 32-bit words. -/
def bytesToWords : List Nat → List Nat
  | b0 :: b1 :: b2 :: b3 :: rest =>
    (b0 * 16777216 + b1 * 65536 + b2 * 256 + b3) :: bytesToWords rest
  | _ => []

/-- Splitting of a byte list into 64-byte chunks, driven by a fuel counter so
that the recursion is structural (each step consumes at least one byte, so
`l.length` fuel always suffices). -/
def chunks64Go : Nat → List Nat → List (List Nat)
  | 0, _ => []
  | fuel + 1, l => if l = [] then [] else l.take 64 :: chunks64Go fuel (l.drop 64)

/-- Splitting of a byte list into 64-byte chunks. -/
def chunks64 (l : List Nat) : List (List Nat) := chunks64Go l.length l

/-- SHA-1 message schedule: extend the 16 chunk words to 80. -/
def sha1Extend (w : Array Nat) : Array Nat :=
  (List.range 64).foldl
    (fun w i =>
      w.push (rotl32 1
        (w.getD (i + 13) 0 ^^^ w.getD (i + 8) 0 ^^^ w.getD (i + 2) 0 ^^^ w.getD i 0)))
    w

/-- The 80 SHA-1 rounds over one message schedule. -/
def sha1Rounds (w : Array Nat) (st : Nat × Nat × Nat × Nat × Nat) :
    Nat × Nat × Nat × Nat × Nat :=
  (List.range 80).foldl
    (fun st i =>
      let (a, b, c, d, e) := st
      let temp := (rotl32 5 a + sha1F i b c d + e + sha1K i + w.getD i 0) % w32
      (temp, a, rotl32 30 b, c, d))
    st

/-- Processing of one 64-byte chunk into the running hash state. -/
def sha1ProcessChunk (h : Nat × Nat × Nat × Nat × Nat) (chunk : List Nat) :
    Nat × Nat × Nat × Nat × Nat :=
  let w := sha1Extend (Array.mk (bytesToWords chunk))
  let (h0, h1, h2, h3, h4) := h
  let (a, b, c, d, e) := sha1Rounds w (h0, h1, h2, h3, h4)
  ((h0 + a) % w32, (h1 + b) % w32, (h2 + c) % w32, (h3 + d) % w32, (h4 + e) % w32)

/-- SHA-1 of a byte list (FIPS 180-4), as a 20-byte list. -/
def sha1 (msg : List Nat) : List Nat :=
  let fin := (chunks64 (sha1Pad msg)).foldl sha1ProcessChunk
    (0x67452301, 0xEFCDAB89, 0x98BADCFE, 0x10325476, 0xC3D2E1F0)
  let (h0, h1, h2, h3, h4) := fin
  beBytes4 h0 ++ beBytes4 h1 ++ beBytes4 h2 ++ beBytes4 h3 ++ beBytes4 h4

/-- HMAC-SHA1 (FIPS 198-1): keys longer than the 64-byte block are hashed
first, shorter keys zero-padded. -/
def hmacSha1 (key msg : List Nat) : List Nat :=
  let k0 := if key.length > 64 then sha1 key else key
  let k1 := k0 ++ List.replicate (64 - k0.length) 0
  let ipadded := k1.map (fun b => b ^^^ 0x36)
  let opadded := k1.map (fun b => b ^^^ 0x5C)
  sha1 (opadded ++ sha1 (ipadded ++ msg))

/-- The standard Base64 alphabet. -/
def base64Alphabet : List Char :=
  "ABCDEFGHIJKLMNOPQRSTUVWXYZabcdefghijklmnopqrstuvwxyz0123456789+/".data

/-- Base64 digit for a 6-bit value. -/
def b64Char (n : Nat) : Char := base64Alphabet.getD n 'A'

/-- Standard Base64 encoding with `=` padding. -/
def base64Encode : List Nat → List Char
  | [] => []
  | [b0] => [b64Char (b0 >>> 2), b64Char ((b0 % 4) <<< 4), '=', '=']
  | [b0, b1] =>
    [b64Char (b0 >>> 2), b64Char (((b0 % 4) <<< 4) ||| (b1 >>> 4)),
      b64Char ((b1 % 16) <<< 2), '=']
  | b0 :: b1 :: b2 :: rest =>
    b64Char (b0 >>> 2) :: b64Char (((b0 % 4) <<< 4) ||| (b1 >>> 4)) ::
      b64Char (((b1 % 16) <<< 2) ||| (b2 >>> 6)) :: b64Char (b2 % 64) ::
        base64Encode rest

/-- UTF-8 bytes of a string. All strings the signing path handles (timestamps,
URL paths, query strings, app ids, secrets) are ASCII, for which UTF-8 is the
identity on code points. -/
def strBytes (s : String) : List Nat := s.data.map Char.toNat

/-- `ApolloClient._sign_string` (client.py lines 185-194): Base64 of the
HMAC-SHA1 of the string under the secret. -/
def signString (stringToSign secret : String) : String :=
  ⟨base64Encode (hmacSha1 (strBytes secret) (strBytes stringToSign))⟩

/-- A request URL, given by the components `urlparse` extracts from it; only
`path` and `query` feed the signature. -/
structure Url where
  path : String
  query : String
deriving DecidableEq

/-- `ApolloClient._url_to_path_with_query` (client.py lines 196-205):
`parsed.path or "/"`, then `?query` appended only when the query is
nonempty. The query string is used exactly as given — it is NOT sorted. -/
def urlToPathWithQuery (u : Url) : String :=
  (if u.path = "" then "/" else u.path) ++
    (if u.query ≠ "" then "?" ++ u.query else "")

/-- `ApolloClient._build_http_headers` (client.py lines 207-224), with the
millisecond timestamp string as an explicit parameter. -/
def buildHttpHeaders (timestamp : String) (u : Url) (appId secret : String) :
    List (String × String) :=
  let stringToSign := timestamp ++ "\n" ++ urlToPathWithQuery u
  let signature := signString stringToSign secret
  [("Authorization", "Apollo " ++ appId ++ ":" ++ signature),
    ("Timestamp", timestamp)]

/-- Lexicographic comparison of character lists by code point, used to order
query-parameter keys in the spec-side canonicalization. -/
def charListLe : List Char → List Char → Bool
  | [], _ => true
  | _ :: _, [] => false
  | a :: as, b :: bs =>
    if a.toNat < b.toNat then true
    else if b.toNat < a.toNat then false
    else charListLe as bs

/-- Key name of a `key=value` query parameter: the part before the first `=`. -/
def paramKey (p : String) : String := String.mk ((pySplit '=' p.data).headD p.data)

/-- Insertion of a parameter into a key-sorted parameter list. -/
def insertParam (p : String) : List String → List String
  | [] => [p]
  | q :: rest =>
    if charListLe (paramKey p).data (paramKey q).data then p :: q :: rest
    else q :: insertParam p rest

/-- Insertion sort of query parameters by key name. -/
def sortParams : List String → List String
  | [] => []
  | p :: rest => insertParam p (sortParams rest)

/-- Split of a query string on `&` into its parameters. -/
def splitQuery (q : String) : List String := (pySplit '&' q.data).map String.mk

/-- Rejoin of query parameters with `&`. -/
def joinQuery : List String → String
  | [] => ""
  | [p] => p
  | p :: rest => p ++ "&" ++ joinQuery rest

/-- Canonicalization the spec prescribes: split the query on `&`, sort the
parameters by key name, rejoin with `&`. -/
def sortedQuery (q : String) : String :=
  joinQuery (sortParams (splitQuery q))

/-- Modelled from the spec (section 4.1): the headers the claim says the
signing path produces — Authorization and Timestamp, with the signature
taken over the string `timestamp`, newline, `path?sorted_query`, the query
canonicalized by sorting on key name. To be compared with
`buildHttpHeaders`, the embedding of the source. -/
def specCanonicalHeaders (timestamp : String) (u : Url) (appId secret : String) :
    List (String × String) :=
  let stringToSign := timestamp ++ "\n" ++ u.path ++ "?" ++ sortedQuery u.query
  let signature := signString stringToSign secret
  [("Authorization", "Apollo " ++ appId ++ ":" ++ signature),
    ("Timestamp", timestamp)]

/-- Kernel evaluation of the signature the source computes for a request at
timestamp 1000 for path `/configs/app/default/application` with query
`b=2&a=1`, secret `secret`: the query is signed exactly as given. -/
theorem signString_unsorted_eval :
    signString "1000\n/configs/app/default/application?b=2&a=1" "secret"
      = "yzY6nxXHCoBEzPjElB7Q1DmFnno=" := by decide

/-- Kernel evaluation of the signature over the same request with the query
canonicalized by key sort, as the spec prescribes. -/
theorem signString_sorted_eval :
    signString "1000\n/configs/app/default/application?a=1&b=2" "secret"
      = "PGHezwsTVIhEQPuN6SQ/OXPCUMI=" := by decide

/-- The source headers and the spec headers agree exactly when the two
signatures agree: everything but the string being signed is identical. -/
theorem buildHttpHeaders_eq_spec_iff (ts : String) (u : Url) (appId secret : String) :
    buildHttpHeaders ts u appId secret = specCanonicalHeaders ts u appId secret ↔
    signString (ts ++ "\n" ++ urlToPathWithQuery u) secret
      = signString (ts ++ "\n" ++ u.path ++ "?" ++ sortedQuery u.query) secret := by
  constructor
  · intro h
    simp only [buildHttpHeaders, specCanonicalHeaders, List.cons.injEq, Prod.mk.injEq,
      true_and, and_true] at h
    have hd := congrArg String.data h
    simp only [String.data_append, List.append_assoc] at hd
    exact String.ext
      (List.append_cancel_left (List.append_cancel_left (List.append_cancel_left hd)))
  · intro h
    simp only [buildHttpHeaders, specCanonicalHeaders, h]

/-- The URL of the C3 counterexample: its query parameters are not in key
order. -/
def c3Url : Url := ⟨"/configs/app/default/application", "b=2&a=1"⟩

/-- C3 counterexample: at timestamp 1000, app id `app`, secret `secret` and a
request URL whose query is `b=2&a=1`, the headers the source produces differ
from the headers the claim describes — `_build_http_headers` signs the query
exactly as given, without sorting it on key name. -/
theorem build_http_headers_do_not_sort_query :
    buildHttpHeaders "1000" c3Url "app" "secret"
      ≠ specCanonicalHeaders "1000" c3Url "app" "secret" := by
  intro h
  have h2 := (buildHttpHeaders_eq_spec_iff "1000" c3Url "app" "secret").mp h
  have hu : ("1000" ++ "\n" ++ urlToPathWithQuery c3Url : String)
      = "1000\n/configs/app/default/application?b=2&a=1" := by decide
  have hs : ("1000" ++ "\n" ++ c3Url.path ++ "?" ++ sortedQuery c3Url.query : String)
      = "1000\n/configs/app/default/application?a=1&b=2" := by decide
  rw [hu, hs, signString_unsorted_eval, signString_sorted_eval] at h2
  exact absurd h2 (by decide)

/-- C3 (amended): the produced headers are Authorization =
`Apollo {app_id}:{signature}` and Timestamp = the millisecond timestamp,
where signature is the Base64 HMAC-SHA1 over
`"{timestamp}\n{path}?{query}"` with the query string taken exactly as it
appears in the URL; this coincides with the sorted-canonicalized form the
claim describes exactly when the query is already sorted by key name (and the
`?` is present only for a nonempty query). -/
theorem build_http_headers_match_spec_on_sorted_query (ts appId secret p q : String)
    (hp : p ≠ "") (hq : q ≠ "") (hsorted : sortedQuery q = q) :
    buildHttpHeaders ts ⟨p, q⟩ appId secret
      = specCanonicalHeaders ts ⟨p, q⟩ appId secret := by
  apply (buildHttpHeaders_eq_spec_iff ts ⟨p, q⟩ appId secret).mpr
  have harg : (ts ++ "\n" ++ urlToPathWithQuery ⟨p, q⟩ : String)
      = ts ++ "\n" ++ (⟨p, q⟩ : Url).path ++ "?" ++ sortedQuery (⟨p, q⟩ : Url).query := by
    rw [hsorted]
    apply String.ext
    simp [urlToPathWithQuery, hp, hq, String.data_append, List.append_assoc]
  exact congrArg (fun s => signString s secret) harg

/-- Witness for C3 (amended) at a concrete already-sorted query. -/
theorem build_http_headers_match_spec_on_sorted_query_witness :
    (("/configs/app/default/application" : String) ≠ "" ∧
      ("a=1&b=2" : String) ≠ "" ∧ sortedQuery "a=1&b=2" = "a=1&b=2") ∧
    buildHttpHeaders "1000" ⟨"/configs/app/default/application", "a=1&b=2"⟩ "app" "secret"
      = specCanonicalHeaders "1000" ⟨"/configs/app/default/application", "a=1&b=2"⟩
          "app" "secret" :=
  ⟨⟨by decide, by decide, by decide⟩,
    build_http_headers_match_spec_on_sorted_query "1000" "app" "secret"
      "/configs/app/default/application" "a=1&b=2" (by decide) (by decide) (by decide)⟩

end PydApollo
